import Mathlib

/-!
Verification development for the Transaction-Receipt Reconciliation Engine
(backend/app/services/reconciler.py and backend/app/api/endpoints/reconciliation.py).

The engine state is embedded shallowly: SQLAlchemy rows become Lean structures,
queries become list filters, object mutation inside a unit of work becomes a
pure state transformation returning the session state (on an error raised
mid-operation the returned state is the dirty session state at raise time).
Monetary values (Python floats fed from decimals) are embedded as exact
rationals; dates as integer day numbers, so that `(a - b).days` is `a - b`.
The fuzzy name scorer (`thefuzz.fuzz.partial_ratio`, an external library)
is a parameter of the engine: any function from two lowered strings to a
0..100 score.
-/

/-- Modelled from the spec: `FinancialDocument` (app/db/models.py is not part
of the sources; fields follow spec section 3 and their uses in the endpoints).
`doc_type` is one of RECEIPT, BANK_STATEMENT, UNKNOWN. -/
structure FinancialDocument where
  id : Nat
  doc_type : String
  competence_month : Option Nat
  competence_year : Option Nat
deriving DecidableEq

/-- Modelled from the spec: `Transaction` (app/db/models.py is not part of the
sources; fields follow spec section 3 and their uses in the endpoints).
`date` is an integer day number; `amount` a signed exact rational; the link
triple is `receipt_id`, `match_score`, `match_type`. -/
structure Transaction where
  id : Nat
  document_id : Nat
  merchant_name : String
  date : Int
  amount : Rat
  competence_month : Option Nat
  competence_year : Option Nat
  is_finalized : Bool
  receipt_id : Option Nat
  match_score : Option Rat
  match_type : Option String
deriving DecidableEq

/-- The record store contents: documents, transactions, and the set of
`TaxAnalysis` rows represented by their `transaction_id` keys. -/
structure DB where
  documents : List FinancialDocument
  transactions : List Transaction
  tax_analyses : List Nat
deriving DecidableEq

/-- Result of the amount gate of `run_auto_reconciliation` (reconciler.py
lines 55-77): a 1:1 exact match or an installment-`n` fractional match. -/
inductive AmountMatch where
  | exact
  | installment (n : Nat)
deriving DecidableEq

def AmountMatch.isInstallment : AmountMatch → Bool
  | .exact => false
  | .installment _ => true

/-- Amount gate (reconciler.py lines 55-77): accept 1:1 when
`abs(abs(b_amt) - abs(r_amt)) <= 0.05`; only otherwise scan `n` in
`range(2, 13)` and accept the first `n` with
`abs(abs(b_amt) - abs(r_amt) / n) <= 1.0`. -/
def amount_gate (b_amt r_amt : Rat) : Option AmountMatch :=
  if abs (abs b_amt - abs r_amt) ≤ 5/100 then
    some .exact
  else
    match (List.range' 2 11).find? (fun (n : Nat) => decide (abs (abs b_amt - abs r_amt / (n : Rat)) ≤ 1)) with
    | some n => some (.installment n)
    | none => none

/-- Date gate (reconciler.py lines 79-121): reject when the absolute day
difference exceeds 3, except that installment candidates are kept up to a
180-day difference. -/
def date_window_ok (is_installment : Bool) (date_penalty : Nat) : Bool :=
  if date_penalty > 3 then
    if is_installment then decide (date_penalty ≤ 180) else false
  else true

/-- One surviving candidate row, as built by the dict appended at
reconciler.py lines 130-137. -/
structure Candidate where
  receipt_txn : Transaction
  date_penalty : Nat
  name_score : Nat
  match_type : String
  installment_n : Option Nat
  base_score_penalty : Rat
deriving DecidableEq

/-- The per-pair body of the candidate loop (reconciler.py lines 41-137):
amount gate, then date gate, then the strict >= 85 name-score rail for
installments; `none` models `continue`. `fuzz` stands for
`fuzz.partial_ratio` applied to the lowered merchant names. -/
def pair_check (fuzz : String → String → Nat) (bank_txn receipt_txn : Transaction) :
    Option Candidate :=
  match amount_gate bank_txn.amount receipt_txn.amount with
  | none => none
  | some am =>
    let date_penalty := (bank_txn.date - receipt_txn.date).natAbs
    if date_window_ok am.isInstallment date_penalty then
      let name_score := fuzz receipt_txn.merchant_name.toLower bank_txn.merchant_name.toLower
      if am.isInstallment && decide (name_score < 85) then none
      else
        some { receipt_txn := receipt_txn
               date_penalty := date_penalty
               name_score := name_score
               match_type := if am.isInstallment then "INSTALLMENT" else "AUTO"
               installment_n := match am with | .exact => none | .installment n => some n
               base_score_penalty := if am.isInstallment then 5/100 else 0 }
    else none

/-- Sort order of reconciler.py line 143: smallest date penalty first, then
highest name score. -/
def cand_le (c d : Candidate) : Prop :=
  c.date_penalty < d.date_penalty ∨
    (c.date_penalty = d.date_penalty ∧ d.name_score ≤ c.name_score)

instance : DecidableRel cand_le := fun c d => by unfold cand_le; infer_instance

instance : IsTotal Candidate cand_le := ⟨fun a b => by unfold cand_le; omega⟩

instance : IsTrans Candidate cand_le := ⟨fun a b c hab hbc => by
  unfold cand_le at *; omega⟩

instance : IsRefl Candidate cand_le := ⟨fun a => by unfold cand_le; omega⟩

/-- The value of the loop-carried Python variable `is_installment` after the
candidate loop over `receipt_transactions` finishes: it was last assigned in
the iteration of the final receipt (reconciler.py lines 60-74), and it is
only ever read when the candidate list is nonempty. -/
def last_installment_flag (bank_txn : Transaction)
    (receipt_transactions : List Transaction) : Bool :=
  match receipt_transactions.getLast? with
  | none => false
  | some r => (amount_gate bank_txn.amount r.amount).elim false AmountMatch.isInstallment

/-- Final score composition (reconciler.py lines 146-158). The installment
override at line 148 reads the loop-carried `is_installment` flag, not the
best candidate's own kind. -/
def final_score (is_installment_flag : Bool) (best : Candidate) : Rat :=
  let s1 : Rat := 9/10 - (best.date_penalty : Rat) * (5/100)
  let s2 : Rat := if is_installment_flag && decide (best.date_penalty > 5) then 17/20 else s1
  let s3 : Rat := if best.name_score > 80 then s2 + 1/10 else s2
  let s4 : Rat := s3 - best.base_score_penalty
  min s4 1

/-- The link data written for an accepted bank transaction
(reconciler.py lines 162-178). -/
structure MatchLink where
  receipt_doc_id : Nat
  score : Rat
  link_type : String
deriving DecidableEq

/-- The stored `match_type` string: `INSTALLMENT (n)` when the candidate
carries an installment count, else the candidate's own tag
(reconciler.py lines 167-178). -/
def final_match_type (best : Candidate) : String :=
  match best.installment_n with
  | some n => "INSTALLMENT (" ++ toString n ++ ")"
  | none => best.match_type

/-- Selection for one bank transaction (reconciler.py lines 139-178): sort the
surviving candidates (Python's `list.sort` is stable, as is
`List.insertionSort`, and a stable sort under a fixed total preorder is
unique), take the first, accept only when the final score reaches 0.70. -/
def select_best (fuzz : String → String → Nat) (receipt_transactions : List Transaction)
    (bank_txn : Transaction) : Option MatchLink :=
  let candidates := receipt_transactions.filterMap (pair_check fuzz bank_txn)
  match List.insertionSort cand_le candidates with
  | [] => none
  | best :: _ =>
    let fs := final_score (last_installment_flag bank_txn receipt_transactions) best
    if (70 : Rat)/100 ≤ fs then
      some { receipt_doc_id := best.receipt_txn.document_id
             score := fs
             link_type := final_match_type best }
    else none

/-- The `doc_type` of the document a transaction joins to via `document_id`. -/
def owner_doc_type (documents : List FinancialDocument) (t : Transaction) : Option String :=
  (documents.find? (fun d => d.id == t.document_id)).map FinancialDocument.doc_type

/-- Membership in the bank candidate query of reconciler.py lines 15-19:
owned by a BANK_STATEMENT document and `receipt_id IS NULL`. -/
def is_unlinked_bank_txn (documents : List FinancialDocument) (t : Transaction) : Bool :=
  owner_doc_type documents t == some "BANK_STATEMENT" && t.receipt_id.isNone

/-- The receipt-side candidate query of reconciler.py lines 23-26: every
transaction owned by a RECEIPT document, regardless of link state. -/
def receipt_txns (documents : List FinancialDocument) (txns : List Transaction) :
    List Transaction :=
  txns.filter (fun t => owner_doc_type documents t == some "RECEIPT")

/-- Writing the link triple onto an accepted bank transaction
(reconciler.py lines 165-178). -/
def apply_match (t : Transaction) (link : MatchLink) : Transaction :=
  { t with receipt_id := some link.receipt_doc_id
           match_score := some link.score
           match_type := some link.link_type }

/-- The effect of one auto-reconciliation run on a single stored transaction:
transactions outside the bank candidate set are untouched; a collected bank
transaction is updated exactly when selection accepts a candidate. -/
def auto_step (fuzz : String → String → Nat) (db : DB) (t : Transaction) : Transaction :=
  if is_unlinked_bank_txn db.documents t then
    match select_best fuzz (receipt_txns db.documents db.transactions) t with
    | some link => apply_match t link
    | none => t
  else t

/-- The statistics dict returned by `run_auto_reconciliation`
(reconciler.py lines 11, 181-194) together with the committed store state. -/
structure RunStats where
  db : DB
  matches_found : Nat
  accuracy : Rat
  details : List (Nat × Nat × Rat)
deriving DecidableEq

/-- `ReconciliationEngine.run_auto_reconciliation` (reconciler.py): collect
unlinked bank transactions and all receipt transactions, pick at most one
accepted link per bank transaction, write the triples, and report
`matches_found` and `accuracy = matches_found / len(receipt_transactions)`. -/
def run_auto_reconciliation (fuzz : String → String → Nat) (db : DB) : RunStats :=
  let receipts := receipt_txns db.documents db.transactions
  let banks := db.transactions.filter (is_unlinked_bank_txn db.documents)
  let accepted := banks.filterMap (fun t =>
    (select_best fuzz receipts t).map (fun link => (t.id, link.receipt_doc_id, link.score)))
  { db := { db with transactions := db.transactions.map (auto_step fuzz db) }
    matches_found := accepted.length
    accuracy := if receipts.isEmpty then 0 else (accepted.length : Rat) / (receipts.length : Rat)
    details := accepted }

/-- Errors surfaced by `manual_match_transaction`
(reconciliation.py lines 359-445): 404s, the 400 for a non-receipt document,
and the 409 Conflict carrying the human-readable discrepancy detail. -/
inductive ManualMatchError where
  | transaction_not_found
  | receipt_not_found
  | not_a_receipt
  | conflict (detail : String)
deriving DecidableEq

/-- The amount-discrepancy warning text of reconciliation.py line 425,
naming both compared magnitudes. -/
def discrepancy_message (txn_amt r_amt : Rat) : String :=
  "Diferença de valor detectada: R$ " ++ toString txn_amt ++ " vs R$ " ++ toString r_amt

/-- Clearing a transaction's whole link triple (the steal of
reconciliation.py lines 403-407, also used by document deletion). -/
def clear_link (t : Transaction) : Transaction :=
  { t with receipt_id := none, match_score := none, match_type := none }

/-- Receipt resolution of reconciliation.py lines 377-394: fetch the document
by id; if absent, interpret the given id as a receipt transaction id and fall
back to that transaction's owning document. -/
def resolve_receipt (db : DB) (receipt_param : Nat) : Option FinancialDocument :=
  match db.documents.find? (fun d => d.id == receipt_param) with
  | some d => some d
  | none =>
    match db.transactions.find? (fun t => t.id == receipt_param) with
    | some receipt_tx => db.documents.find? (fun d => d.id == receipt_tx.document_id)
    | none => none

/-- The steal clearing function of reconciliation.py lines 403-407: any other
transaction currently pointing at the receipt loses its whole link triple. -/
def steal_fn (receipt_id txn_id : Nat) (t : Transaction) : Transaction :=
  if t.receipt_id == some receipt_id && t.id != txn_id then clear_link t else t

/-- The warning list built by the force-gated validation of
reconciliation.py lines 409-430: with `force` the list stays empty; otherwise
the first transaction owned by the receipt provides the compared amount, and
a magnitude difference beyond 0.05 emits the discrepancy message. The date
check is commented out in the source. -/
def manual_warnings (db : DB) (txn : Transaction) (receipt : FinancialDocument)
    (force : Bool) : List String :=
  if force then []
  else
    match (db.transactions.filter (fun t => t.document_id == receipt.id)).head? with
    | none => []
    | some rt =>
      if (5 : Rat)/100 < abs (abs txn.amount - abs rt.amount) then
        [discrepancy_message (abs txn.amount) (abs rt.amount)]
      else []

/-- Applying the manual link (reconciliation.py lines 438-441): the target
transaction gets the receipt, score 1.0 and type MANUAL. -/
def apply_manual_fn (receipt_id txn_id : Nat) (t : Transaction) : Transaction :=
  if t.id == txn_id then
    { t with receipt_id := some receipt_id
             match_score := some 1
             match_type := some "MANUAL" }
  else t

/-- `manual_match_transaction` (reconciliation.py lines 359-445). The returned
`DB` is the session state when the endpoint finishes, whether by success or by
a raised error; the steal loop runs before the force-gated discrepancy
validation, so on the Conflict path the state already has every other holder
of the receipt cleared. -/
def manual_match_transaction (db : DB) (transaction_id receipt_param : Nat)
    (force : Bool) : DB × Except ManualMatchError String :=
  match db.transactions.find? (fun t => t.id == transaction_id) with
  | none => (db, .error .transaction_not_found)
  | some txn =>
    match resolve_receipt db receipt_param with
    | none => (db, .error .receipt_not_found)
    | some receipt =>
      if receipt.doc_type != "RECEIPT" then (db, .error .not_a_receipt)
      else
        let stolen := db.transactions.map (steal_fn receipt.id txn.id)
        let warnings := manual_warnings db txn receipt force
        if warnings.isEmpty then
          ({ db with transactions := stolen.map (apply_manual_fn receipt.id txn.id) },
           .ok "Match confirmed")
        else
          ({ db with transactions := stolen },
           .error (.conflict ("Discrepancy Detected: " ++ String.intercalate ", " warnings)))

/-- Counts returned by `clear_workspace` together with the committed state. -/
structure CleanupStats where
  db : DB
  deleted_transactions : Nat
  deleted_documents : Nat
deriving DecidableEq

/-- The transaction deletion filter of reconciliation.py lines 467-474:
competence match, not finalized, and (in `only_unlinked` mode) unlinked. -/
def cw_txn_pred (month year : Nat) (only_unlinked : Bool) (t : Transaction) : Bool :=
  t.competence_month == some month && t.competence_year == some year &&
  t.is_finalized == false && (!only_unlinked || t.receipt_id.isNone)

/-- The transactions selected for deletion by `clear_workspace`. -/
def cw_txns_to_delete (db : DB) (month year : Nat) (only_unlinked : Bool) :
    List Transaction :=
  db.transactions.filter (cw_txn_pred month year only_unlinked)

/-- Their ids, used by the bulk deletes of reconciliation.py lines 477-484. -/
def cw_txn_ids (db : DB) (month year : Nat) (only_unlinked : Bool) : List Nat :=
  (cw_txns_to_delete db month year only_unlinked).map Transaction.id

/-- The transaction table after the bulk delete of step 1. -/
def cw_remaining_txns (db : DB) (month year : Nat) (only_unlinked : Bool) :
    List Transaction :=
  db.transactions.filter (fun t => !((cw_txn_ids db month year only_unlinked).contains t.id))

/-- The document deletion test of reconciliation.py lines 503-535, evaluated
against the post-step-1 transaction table: no finalized owned transaction, not
a receipt in live use (in `only_unlinked` mode), and no remaining owned
transaction at all. -/
def cw_doc_pred (db : DB) (month year : Nat) (only_unlinked : Bool)
    (d : FinancialDocument) : Bool :=
  !(((cw_remaining_txns db month year only_unlinked).filter
      (fun t => t.document_id == d.id)).any Transaction.is_finalized) &&
  !(only_unlinked && d.doc_type == "RECEIPT" &&
      (cw_remaining_txns db month year only_unlinked).any
        (fun t => t.receipt_id == some d.id)) &&
  ((cw_remaining_txns db month year only_unlinked).filter
      (fun t => t.document_id == d.id)).isEmpty

/-- The documents selected for deletion: competence-matching documents that
pass `cw_doc_pred`. -/
def cw_docs_to_delete (db : DB) (month year : Nat) (only_unlinked : Bool) :
    List FinancialDocument :=
  (db.documents.filter (fun d =>
      d.competence_month == some month && d.competence_year == some year)).filter
    (cw_doc_pred db month year only_unlinked)

/-- `clear_workspace` (reconciliation.py lines 447-562): delete the
competence-matching, non-finalized (and, with `only_unlinked`, unlinked)
transactions plus their analysis rows; then delete the competence-matching
documents that own no finalized transaction, are (in `only_unlinked` mode)
not serving as a live `receipt_id` target, and own no remaining transaction
after the first step. -/
def clear_workspace (db : DB) (month year : Nat) (only_unlinked : Bool) : CleanupStats :=
  { db := { documents := db.documents.filter (fun d =>
              !(((cw_docs_to_delete db month year only_unlinked).map
                  FinancialDocument.id).contains d.id))
            transactions := cw_remaining_txns db month year only_unlinked
            tax_analyses := db.tax_analyses.filter (fun a =>
              !((cw_txn_ids db month year only_unlinked).contains a)) }
    deleted_transactions := (cw_txns_to_delete db month year only_unlinked).length
    deleted_documents := (cw_docs_to_delete db month year only_unlinked).length }

/-- A fuzzy scorer stub reporting a perfect 100 for every pair, used to
exercise the engine on concrete stores where names agree. -/
def fuzz_const (_a _b : String) : Nat := 100

/-- A sample bank-statement document. -/
def bank_doc : FinancialDocument := ⟨10, "BANK_STATEMENT", some 11, some 2025⟩

/-- A sample receipt document. -/
def receipt_doc : FinancialDocument := ⟨20, "RECEIPT", some 11, some 2025⟩

/-- A sample unlinked bank transaction of -100.00 on day 0. -/
def bank_txn_a : Transaction :=
  ⟨1, 10, "ACME PAG", 0, -100, some 11, some 2025, false, none, none, none⟩

/-- A second unlinked bank transaction with the same amount and date. -/
def bank_txn_b : Transaction :=
  ⟨2, 10, "ACME PAG", 0, -100, some 11, some 2025, false, none, none, none⟩

/-- The receipt-side transaction of 100.00 on day 0. -/
def receipt_txn_a : Transaction :=
  ⟨3, 20, "ACME", 0, 100, some 11, some 2025, false, none, none, none⟩

/-- A store with two identical unlinked bank transactions and one receipt
whose single transaction exactly matches both. -/
def sample_db : DB :=
  ⟨[bank_doc, receipt_doc], [bank_txn_a, bank_txn_b, receipt_txn_a], []⟩

/-- A bank transaction identical to `bank_txn_a` except dated day 5, five
days after the receipt issue date. -/
def bank_txn_late : Transaction :=
  ⟨4, 10, "ACME PAG", 5, -100, some 11, some 2025, false, none, none, none⟩

/-- The candidate produced by checking `bank_txn_a` (and equally
`bank_txn_b`) against `receipt_txn_a`: an exact match, zero date penalty,
perfect name score. -/
def cand_a : Candidate := ⟨receipt_txn_a, 0, 100, "AUTO", none, 0⟩

/-- A transaction currently holding `receipt_doc` as its `receipt_id`, used
to exercise the steal protocol. -/
def holder_txn : Transaction :=
  ⟨5, 10, "OLD HOLDER", 0, -100, some 11, some 2025, false, some 20, some 1, some "MANUAL"⟩

/-- A store where `holder_txn` already owns the receipt and `bank_txn_a` is
about to claim it manually. -/
def manual_db : DB :=
  ⟨[bank_doc, receipt_doc], [bank_txn_a, holder_txn, receipt_txn_a], []⟩

/-- A finalized transaction in the November 2025 competence period. -/
def finalized_txn : Transaction :=
  ⟨6, 30, "FINAL", 0, -50, some 11, some 2025, true, none, none, none⟩

/-- The bank-statement document owning `finalized_txn`. -/
def final_doc : FinancialDocument := ⟨30, "BANK_STATEMENT", some 11, some 2025⟩

/-- A store holding a finalized transaction, its document, a receipt, and an
analysis row, all in the targeted competence period. -/
def cleanup_db : DB :=
  ⟨[final_doc, receipt_doc], [finalized_txn, receipt_txn_a], [6]⟩

/-- An unlinked bank transaction of 100.00, target of a mismatched manual
match request. -/
def mismatch_txn : Transaction :=
  ⟨7, 10, "PAY", 0, 100, some 11, some 2025, false, none, none, none⟩

/-- A receipt document whose transaction carries 150.00. -/
def receipt_doc_40 : FinancialDocument := ⟨40, "RECEIPT", some 11, some 2025⟩

/-- The 150.00 transaction owned by `receipt_doc_40`. -/
def receipt_txn_150 : Transaction :=
  ⟨8, 40, "SHOP", 0, 150, some 11, some 2025, false, none, none, none⟩

/-- A store where a 100.00 transaction is manually matched against a 150.00
receipt. -/
def mismatch_db : DB :=
  ⟨[bank_doc, receipt_doc_40], [mismatch_txn, receipt_txn_150], []⟩

/-- A transaction currently holding `receipt_doc_40`. -/
def holder_txn_40 : Transaction :=
  ⟨9, 10, "OLDH", 0, -150, some 11, some 2025, false, some 40, some 1, some "AUTO"⟩

/-- A store with a prior holder of the receipt, exercising the steal step on
the Conflict path. -/
def steal_db : DB :=
  ⟨[bank_doc, receipt_doc_40], [mismatch_txn, holder_txn_40, receipt_txn_150], []⟩

/-- A receipt document owning no transaction at all. -/
def empty_receipt_doc : FinancialDocument := ⟨50, "RECEIPT", some 11, some 2025⟩

/-- A store whose receipt document owns zero transactions. -/
def empty_receipt_db : DB :=
  ⟨[bank_doc, empty_receipt_doc], [mismatch_txn], []⟩

/-- Characterization of a first-hit linear scan over `List.range'`, mirroring a
Python `for ... in range(a, a+len): if p: break`. -/
theorem find?_range'_eq_some_iff (p : Nat → Bool) (a len n : Nat) :
    (List.range' a len).find? p = some n ↔
      a ≤ n ∧ n < a + len ∧ p n = true ∧ ∀ m, a ≤ m → m < n → p m = false := by
  induction len generalizing a with
  | zero => simp; omega
  | succ k ih =>
    rw [List.range'_succ]
    rcases hpa : p a with _ | _
    · rw [List.find?_cons_of_neg _ (by simp [hpa]), ih]
      constructor
      · rintro ⟨h1, h2, h3, h4⟩
        refine ⟨by omega, by omega, h3, fun m hm1 hm2 => ?_⟩
        rcases Nat.eq_or_lt_of_le hm1 with h | h
        · simpa [← h] using hpa
        · exact h4 m h hm2
      · rintro ⟨h1, h2, h3, h4⟩
        have hna : n ≠ a := by rintro rfl; rw [h3] at hpa; exact absurd hpa (by decide)
        refine ⟨by omega, by omega, h3, fun m hm1 hm2 => h4 m (by omega) hm2⟩
    · rw [List.find?_cons_of_pos _ (by simp [hpa])]
      constructor
      · rintro h
        have : n = a := by simpa using h.symm
        subst this
        exact ⟨le_refl _, by omega, hpa, fun m hm1 hm2 => by omega⟩
      · rintro ⟨h1, h2, h3, h4⟩
        rcases Nat.eq_or_lt_of_le h1 with h | h
        · simp [h]
        · have := h4 a (le_refl _) h
          rw [this] at hpa
          exact absurd hpa (by decide)

/-- The amount gate accepts a pair as exact precisely under the 0.05
magnitude tolerance. -/
theorem amount_gate_exact_iff (b r : Rat) :
    amount_gate b r = some .exact ↔ abs (abs b - abs r) ≤ 5/100 := by
  by_cases h : abs (abs b - abs r) ≤ 5/100
  · simp [amount_gate, h]
  · rcases hf : (List.range' 2 11).find?
        (fun (n : Nat) => decide (abs (abs b - abs r / (n : Rat)) ≤ 1)) with _ | m <;>
      simp [amount_gate, h, hf]

/-- The amount gate reports installment-`n` precisely when the exact test
fails and `n` is the least divisor in 2..12 within the 1.0 tolerance. -/
theorem amount_gate_installment_iff (b r : Rat) (n : Nat) :
    amount_gate b r = some (.installment n) ↔
      ¬ abs (abs b - abs r) ≤ 5/100 ∧ 2 ≤ n ∧ n ≤ 12 ∧
        abs (abs b - abs r / (n : Rat)) ≤ 1 ∧
        ∀ m : Nat, 2 ≤ m → m < n → ¬ abs (abs b - abs r / (m : Rat)) ≤ 1 := by
  by_cases h : abs (abs b - abs r) ≤ 5/100
  · simp [amount_gate, h]
  · rcases hf : (List.range' 2 11).find?
        (fun (n : Nat) => decide (abs (abs b - abs r / (n : Rat)) ≤ 1)) with _ | m
    · have hg : amount_gate b r = none := by
        unfold amount_gate
        rw [if_neg h, hf]
      rw [hg]
      rw [List.find?_eq_none] at hf
      refine iff_of_false (by simp) ?_
      rintro ⟨-, h2, h3, h4, -⟩
      have := hf n (by rw [List.mem_range'_1]; omega)
      simp [h4] at this
    · have hg : amount_gate b r = some (.installment m) := by
        unfold amount_gate
        rw [if_neg h, hf]
      rw [hg]
      rw [find?_range'_eq_some_iff] at hf
      obtain ⟨hm1, hm2, hm3, hm4⟩ := hf
      rw [decide_eq_true_iff] at hm3
      simp only [Option.some.injEq, AmountMatch.installment.injEq]
      constructor
      · rintro rfl
        refine ⟨h, hm1, by omega, hm3, fun k hk1 hk2 => ?_⟩
        have := hm4 k hk1 hk2
        simpa using this
      · rintro ⟨-, hn1, hn2, hn3, hn4⟩
        rcases Nat.lt_trichotomy m n with hlt | heq | hgt
        · exact absurd hm3 (hn4 m hm1 hlt)
        · exact heq
        · have := hm4 n hn1 hgt
          rw [decide_eq_false_iff_not] at this
          exact absurd hn3 this

/-- The amount gate rejects precisely when both the exact and every
installment test fail. -/
theorem amount_gate_none_iff (b r : Rat) :
    amount_gate b r = none ↔
      ¬ abs (abs b - abs r) ≤ 5/100 ∧
        ∀ m : Nat, 2 ≤ m → m ≤ 12 → ¬ abs (abs b - abs r / (m : Rat)) ≤ 1 := by
  by_cases h : abs (abs b - abs r) ≤ 5/100
  · simp [amount_gate, h]
  · rcases hf : (List.range' 2 11).find?
        (fun (n : Nat) => decide (abs (abs b - abs r / (n : Rat)) ≤ 1)) with _ | m
    · have hg : amount_gate b r = none := by
        unfold amount_gate
        rw [if_neg h, hf]
      rw [hg]
      rw [List.find?_eq_none] at hf
      refine iff_of_true rfl ⟨h, fun m hm1 hm2 => ?_⟩
      have := hf m (by rw [List.mem_range'_1]; omega)
      simpa using this
    · have hg : amount_gate b r = some (.installment m) := by
        unfold amount_gate
        rw [if_neg h, hf]
      rw [hg]
      have hmem := List.find?_some hf
      have hm := List.mem_of_find?_eq_some hf
      rw [List.mem_range'_1] at hm
      rw [decide_eq_true_iff] at hmem
      refine iff_of_false (by simp) ?_
      rintro ⟨-, hall⟩
      exact hall m (by omega) (by omega) hmem

/-- Claim C3: the amount gate accepts a pair as exact iff the magnitude
difference is within 0.05; only when the exact test fails it accepts as
installment-`n` for the least `n` in 2..12 with the bank magnitude within
1.0 of the receipt magnitude divided by `n`, and otherwise rejects; in
particular bank -100.00 vs receipt 100.00 is exact, a 0.06 difference fails
the exact gate, and bank 100.00 vs receipt 300.00 is installment n=3. -/
theorem C3_amount_gate (b r : Rat) (n : Nat) :
    (amount_gate b r = some .exact ↔ abs (abs b - abs r) ≤ 5/100)
  ∧ (amount_gate b r = some (.installment n) ↔
      ¬ abs (abs b - abs r) ≤ 5/100 ∧ 2 ≤ n ∧ n ≤ 12 ∧
        abs (abs b - abs r / (n : Rat)) ≤ 1 ∧
        ∀ m : Nat, 2 ≤ m → m < n → ¬ abs (abs b - abs r / (m : Rat)) ≤ 1)
  ∧ (amount_gate b r = none ↔
      ¬ abs (abs b - abs r) ≤ 5/100 ∧
        ∀ m : Nat, 2 ≤ m → m ≤ 12 → ¬ abs (abs b - abs r / (m : Rat)) ≤ 1)
  ∧ amount_gate (-100) 100 = some .exact
  ∧ amount_gate (10006/100) 100 ≠ some .exact
  ∧ amount_gate 100 300 = some (.installment 3) := by
  refine ⟨amount_gate_exact_iff b r, amount_gate_installment_iff b r n,
    amount_gate_none_iff b r, ?_, ?_, ?_⟩
  · rw [amount_gate_exact_iff]
    norm_num [abs_of_nonpos]
  · rw [Ne, amount_gate_exact_iff]
    norm_num [abs_of_nonneg]
  · rw [amount_gate_installment_iff]
    refine ⟨by norm_num [abs_of_nonneg], by norm_num, by norm_num, by norm_num,
      fun m hm1 hm2 => ?_⟩
    have hm : m = 2 := by omega
    subst hm
    norm_num [abs_of_nonpos]

/-- Claim C4 counterexample: the spec's asymmetric exact window [-1, +5] does
not match the code. A bank transaction dated 5 days after its exact-amount
receipt (delta = +5, accepted under the claim) is rejected by the date gate
and produces no candidate, while delta = -2 (rejected under the claim) is
accepted. -/
theorem C4_counterexample :
    pair_check fuzz_const bank_txn_late receipt_txn_a = none
  ∧ date_window_ok false ((bank_txn_late.date - receipt_txn_a.date).natAbs) = false
  ∧ date_window_ok false (((-2 : Int) - 0).natAbs) = true := by
  refine ⟨?_, by decide, by decide⟩
  have hag : amount_gate bank_txn_late.amount receipt_txn_a.amount = some .exact := by
    rw [amount_gate_exact_iff]
    show abs (abs (-100 : Rat) - abs (100 : Rat)) ≤ 5/100
    norm_num [abs_of_nonpos]
  unfold pair_check
  rw [hag]
  simp [bank_txn_late, receipt_txn_a, date_window_ok, AmountMatch.isInstallment]

/-- Claim C4 (amended): the date gate is symmetric: a non-installment pair
passes exactly when the day difference lies in [-3, +3] (so delta = -2 is
accepted and delta = +5 rejected), and an installment pair passes exactly
when the day difference lies in [-180, +180]. -/
theorem C4_amended_date_window (delta : Int) :
    (date_window_ok false delta.natAbs = true ↔ -3 ≤ delta ∧ delta ≤ 3)
  ∧ (date_window_ok true delta.natAbs = true ↔ -180 ≤ delta ∧ delta ≤ 180)
  ∧ date_window_ok false ((-2 : Int)).natAbs = true
  ∧ date_window_ok false ((5 : Int)).natAbs = false := by
  have e1 : ∀ d : Nat, date_window_ok false d = decide (d ≤ 3) := by
    intro d
    unfold date_window_ok
    split_ifs with h1 <;> simp_all
  have e2 : ∀ d : Nat, date_window_ok true d = decide (d ≤ 180) := by
    intro d
    unfold date_window_ok
    split_ifs with h1 <;> simp_all <;> omega
  refine ⟨?_, ?_, by rw [e1]; decide, by rw [e1]; decide⟩
  · rw [e1]
    simp only [decide_eq_true_iff]
    constructor <;> omega
  · rw [e2]
    simp only [decide_eq_true_iff]
    constructor <;> omega

/-- Evaluation helper: the exact amount gate fires on -100.00 vs 100.00. -/
theorem amount_gate_neg100_100 : amount_gate (-100 : Rat) 100 = some .exact := by
  rw [amount_gate_exact_iff]
  norm_num [abs_of_nonpos]

/-- Evaluation helper: checking the -100.00 bank transaction `bank_txn_a`
against `receipt_txn_a` yields the exact candidate `cand_a`. -/
theorem pair_check_bank_a :
    pair_check fuzz_const bank_txn_a receipt_txn_a = some cand_a := by
  unfold pair_check
  have hag : amount_gate bank_txn_a.amount receipt_txn_a.amount = some .exact :=
    amount_gate_neg100_100
  rw [hag]
  simp [bank_txn_a, receipt_txn_a, date_window_ok, AmountMatch.isInstallment, fuzz_const,
    cand_a]

/-- Evaluation helper: `bank_txn_b` carries the same amount, date and name,
so it produces the same candidate against `receipt_txn_a`. -/
theorem pair_check_bank_b :
    pair_check fuzz_const bank_txn_b receipt_txn_a = some cand_a := by
  unfold pair_check
  have hag : amount_gate bank_txn_b.amount receipt_txn_a.amount = some .exact :=
    amount_gate_neg100_100
  rw [hag]
  simp [bank_txn_b, receipt_txn_a, date_window_ok, AmountMatch.isInstallment, fuzz_const,
    cand_a]

/-- Evaluation helper: the final score of `cand_a` under a non-installment
trailing flag is the clamped 0.9 + 0.1 = 1.0. -/
theorem final_score_cand_a : final_score false cand_a = 1 := by
  simp [final_score, cand_a]
  norm_num

/-- Evaluation helper: the loop-carried installment flag is false when the
last receipt transaction pairs as an exact match. -/
theorem last_flag_bank_a : last_installment_flag bank_txn_a [receipt_txn_a] = false := by
  have hag : amount_gate bank_txn_a.amount receipt_txn_a.amount = some .exact :=
    amount_gate_neg100_100
  simp [last_installment_flag, hag, AmountMatch.isInstallment]

/-- Evaluation helper: same for `bank_txn_b`. -/
theorem last_flag_bank_b : last_installment_flag bank_txn_b [receipt_txn_a] = false := by
  have hag : amount_gate bank_txn_b.amount receipt_txn_a.amount = some .exact :=
    amount_gate_neg100_100
  simp [last_installment_flag, hag, AmountMatch.isInstallment]

/-- Claim C5: for a bank transaction, the surviving candidates are ordered by
(date penalty ascending, name score descending); only the first candidate of
that order is considered, and a link is produced precisely when its final
score reaches the 0.70 threshold, else the transaction stays unmatched. -/
theorem C5_selection (fuzz : String → String → Nat) (receipts : List Transaction)
    (bank_txn : Transaction) (best : Candidate) (rest : List Candidate)
    (hsort : List.insertionSort cand_le (receipts.filterMap (pair_check fuzz bank_txn)) =
      best :: rest) :
    best ∈ receipts.filterMap (pair_check fuzz bank_txn)
  ∧ (∀ c ∈ receipts.filterMap (pair_check fuzz bank_txn), cand_le best c)
  ∧ select_best fuzz receipts bank_txn =
      (if (70 : Rat)/100 ≤ final_score (last_installment_flag bank_txn receipts) best then
        some { receipt_doc_id := best.receipt_txn.document_id
               score := final_score (last_installment_flag bank_txn receipts) best
               link_type := final_match_type best }
      else none) := by
  have hsorted := List.sorted_insertionSort cand_le
    (receipts.filterMap (pair_check fuzz bank_txn))
  rw [hsort] at hsorted
  refine ⟨?_, ?_, ?_⟩
  · have : best ∈ List.insertionSort cand_le (receipts.filterMap (pair_check fuzz bank_txn)) := by
      rw [hsort]; exact List.mem_cons_self _ _
    exact (List.mem_insertionSort cand_le).mp this
  · intro c hc
    have hc2 : c ∈ List.insertionSort cand_le (receipts.filterMap (pair_check fuzz bank_txn)) :=
      (List.mem_insertionSort cand_le).mpr hc
    rw [hsort] at hc2
    rcases List.mem_cons.mp hc2 with rfl | hc3
    · exact refl_of cand_le c
    · exact List.rel_of_sorted_cons hsorted c hc3
  · simp only [select_best, hsort]

/-- Witness for C5: on the concrete store the single surviving candidate is
`cand_a`, it heads the sorted list, and selection emits exactly the link the
threshold test dictates. -/
theorem C5_selection_witness :
    List.insertionSort cand_le ([receipt_txn_a].filterMap (pair_check fuzz_const bank_txn_a)) =
      [cand_a]
  ∧ select_best fuzz_const [receipt_txn_a] bank_txn_a =
      (if (70 : Rat)/100 ≤ final_score (last_installment_flag bank_txn_a [receipt_txn_a]) cand_a
       then
        some { receipt_doc_id := cand_a.receipt_txn.document_id
               score := final_score (last_installment_flag bank_txn_a [receipt_txn_a]) cand_a
               link_type := final_match_type cand_a }
      else none) := by
  have hsort : List.insertionSort cand_le
      ([receipt_txn_a].filterMap (pair_check fuzz_const bank_txn_a)) = [cand_a] := by
    simp [pair_check_bank_a]
  exact ⟨hsort,
    (C5_selection fuzz_const [receipt_txn_a] bank_txn_a cand_a [] hsort).2.2⟩

/-- Evaluation helper: selection links `bank_txn_a` to receipt document 20
with the full score 1.0 as an AUTO match. -/
theorem select_best_bank_a :
    select_best fuzz_const [receipt_txn_a] bank_txn_a =
      some { receipt_doc_id := 20, score := 1, link_type := "AUTO" } := by
  have hsort : List.insertionSort cand_le
      ([receipt_txn_a].filterMap (pair_check fuzz_const bank_txn_a)) = [cand_a] := by
    simp [pair_check_bank_a]
  simp only [select_best, hsort, last_flag_bank_a, final_score_cand_a]
  norm_num [cand_a, receipt_txn_a, final_match_type]

/-- Evaluation helper: the identical `bank_txn_b` gets the same link. -/
theorem select_best_bank_b :
    select_best fuzz_const [receipt_txn_a] bank_txn_b =
      some { receipt_doc_id := 20, score := 1, link_type := "AUTO" } := by
  have hsort : List.insertionSort cand_le
      ([receipt_txn_a].filterMap (pair_check fuzz_const bank_txn_b)) = [cand_a] := by
    simp [pair_check_bank_b]
  simp only [select_best, hsort, last_flag_bank_b, final_score_cand_a]
  norm_num [cand_a, receipt_txn_a, final_match_type]

/-- Evaluation helper: the receipt candidate list of `sample_db`. -/
theorem receipt_txns_sample :
    receipt_txns sample_db.documents sample_db.transactions = [receipt_txn_a] := by
  decide

/-- Evaluation helper: the full transaction list after one auto run on
`sample_db`: both identical bank transactions are linked to the same
receipt document. -/
theorem run_auto_sample_transactions :
    (run_auto_reconciliation fuzz_const sample_db).db.transactions =
      [apply_match bank_txn_a ⟨20, 1, "AUTO"⟩,
       apply_match bank_txn_b ⟨20, 1, "AUTO"⟩,
       receipt_txn_a] := by
  have hstep_a : auto_step fuzz_const sample_db bank_txn_a =
      apply_match bank_txn_a ⟨20, 1, "AUTO"⟩ := by
    have hbank : is_unlinked_bank_txn sample_db.documents bank_txn_a = true := by decide
    simp [auto_step, hbank, receipt_txns_sample, select_best_bank_a]
  have hstep_b : auto_step fuzz_const sample_db bank_txn_b =
      apply_match bank_txn_b ⟨20, 1, "AUTO"⟩ := by
    have hbank : is_unlinked_bank_txn sample_db.documents bank_txn_b = true := by decide
    simp [auto_step, hbank, receipt_txns_sample, select_best_bank_b]
  have hstep_r : auto_step fuzz_const sample_db receipt_txn_a = receipt_txn_a := by
    have hnb : is_unlinked_bank_txn sample_db.documents receipt_txn_a = false := by decide
    simp [auto_step, hnb]
  show (sample_db.transactions.map (auto_step fuzz_const sample_db)) = _
  rw [show sample_db.transactions = [bank_txn_a, bank_txn_b, receipt_txn_a] from rfl]
  rw [List.map_cons, List.map_cons, List.map_cons, List.map_nil, hstep_a, hstep_b, hstep_r]

/-- Claim C1 counterexample: one auto-reconciliation run on `sample_db` links
the single receipt document (id 20) to two distinct live bank transactions,
so the at-most-one-holder invariant is violated at an observation point
produced by an engine operation. -/
theorem C1_counterexample :
    ¬ (((run_auto_reconciliation fuzz_const sample_db).db.transactions.countP
        (fun t => t.receipt_id == some receipt_doc.id)) ≤ 1) := by
  rw [run_auto_sample_transactions]
  decide

/-- A list of transactions with pairwise distinct ids contains at most one
element satisfying any predicate that forces a fixed id. -/
theorem length_filter_le_one_of_same_id {l : List Transaction} {q : Transaction → Bool}
    {k : Nat} (hnd : (l.map Transaction.id).Nodup)
    (h : ∀ x ∈ l, q x = true → x.id = k) :
    (l.filter q).length ≤ 1 := by
  induction l with
  | nil => simp
  | cons a t ih =>
    rw [List.map_cons, List.nodup_cons] at hnd
    rcases hq : q a with _ | _
    · rw [List.filter_cons_of_neg (by simp [hq])]
      exact ih hnd.2 (fun x hx hqx => h x (List.mem_cons_of_mem _ hx) hqx)
    · rw [List.filter_cons_of_pos (by simp [hq])]
      have hka := h a (List.mem_cons_self _ _) hq
      have hempty : t.filter q = [] := by
        rw [List.filter_eq_nil_iff]
        intro x hx hqx
        have hxk := h x (List.mem_cons_of_mem _ hx) hqx
        have hax : a.id = x.id := by rw [hka, hxk]
        rw [hax] at hnd
        exact hnd.1 (List.mem_map_of_mem Transaction.id hx)
      simp [hempty]

/-- Once the transaction and receipt resolve and the document is a receipt,
the manual match endpoint reduces to the steal step followed by either the
applied link (empty warning list) or the Conflict carrying the warnings. -/
theorem manual_match_eq (db : DB) (tid rp : Nat) (force : Bool)
    (txn : Transaction) (receipt : FinancialDocument)
    (htxn : db.transactions.find? (fun t => t.id == tid) = some txn)
    (hrec : resolve_receipt db rp = some receipt)
    (htype : receipt.doc_type = "RECEIPT") :
    manual_match_transaction db tid rp force =
      (if (manual_warnings db txn receipt force).isEmpty then
        ({ db with transactions := (db.transactions.map (steal_fn receipt.id txn.id)).map (apply_manual_fn receipt.id txn.id) },
         .ok "Match confirmed")
      else
        ({ db with transactions := db.transactions.map (steal_fn receipt.id txn.id) },
         .error (.conflict ("Discrepancy Detected: " ++
            String.intercalate ", " (manual_warnings db txn receipt force))))) := by
  simp only [manual_match_transaction, htxn, hrec]
  rw [if_neg (by simp [htype])]

/-- Claim C1 (amended): manual match preserves exclusivity: whenever the
manual match endpoint succeeds, at most one live transaction holds the
resolved receipt as `receipt_id` (the steal step cleared every other holder
before the new link was applied). Auto-reconciliation, however, does not
preserve exclusivity: a single run may award the same receipt to several
bank transactions even as full exact matches, as the counterexample shows. -/
theorem C1_manual_steal_exclusivity (db : DB) (tid rp : Nat) (force : Bool)
    (txn : Transaction) (receipt : FinancialDocument)
    (hnd : (db.transactions.map Transaction.id).Nodup)
    (htxn : db.transactions.find? (fun t => t.id == tid) = some txn)
    (hrec : resolve_receipt db rp = some receipt)
    (htype : receipt.doc_type = "RECEIPT")
    (hok : (manual_match_transaction db tid rp force).2 = .ok "Match confirmed") :
    ((manual_match_transaction db tid rp force).1.transactions.filter
        (fun t => t.receipt_id == some receipt.id)).length ≤ 1 := by
  rw [manual_match_eq db tid rp force txn receipt htxn hrec htype] at hok ⊢
  rcases hw : (manual_warnings db txn receipt force).isEmpty with _ | _
  · rw [if_neg (by simp [hw])] at hok
    exact absurd hok (by simp)
  · rw [if_pos (by simp [hw])]
    refine length_filter_le_one_of_same_id (k := txn.id) ?_ ?_
    · have hids : ((db.transactions.map (steal_fn receipt.id txn.id)).map
          (apply_manual_fn receipt.id txn.id)).map Transaction.id =
            db.transactions.map Transaction.id := by
        rw [List.map_map, List.map_map]
        refine List.map_congr_left (fun t ht => ?_)
        simp only [Function.comp, steal_fn, apply_manual_fn, clear_link]
        split_ifs <;> rfl
      rw [hids]
      exact hnd
    · intro x hx hqx
      obtain ⟨y, hy, rfl⟩ := List.mem_map.mp hx
      by_cases hid : y.id = txn.id
      · rw [apply_manual_fn, if_pos (by simp [hid])]
        exact hid
      · exfalso
        rw [apply_manual_fn, if_neg (by simp [hid])] at hqx
        obtain ⟨t, ht, rfl⟩ := List.mem_map.mp hy
        by_cases hcond : (t.receipt_id == some receipt.id && t.id != txn.id) = true
        · rw [steal_fn, if_pos hcond] at hqx
          simp [clear_link] at hqx
        · rw [steal_fn, if_neg hcond] at hqx hid
          rw [Bool.and_eq_true, bne_iff_ne] at hcond
          push_neg at hcond
          have hr : t.receipt_id = some receipt.id := by simpa using hqx
          exact hid (hcond (by simp [hr]))

/-- Witness for the amended C1: on `manual_db` the manual match succeeds and
afterwards at most one live transaction holds receipt document 20. -/
theorem C1_manual_steal_exclusivity_witness :
    (manual_match_transaction manual_db 1 20 true).2 = .ok "Match confirmed"
  ∧ ((manual_match_transaction manual_db 1 20 true).1.transactions.filter
      (fun t => t.receipt_id == some receipt_doc.id)).length ≤ 1 := by
  have hok : (manual_match_transaction manual_db 1 20 true).2 = .ok "Match confirmed" := by rfl
  exact ⟨hok, C1_manual_steal_exclusivity manual_db 1 20 true bank_txn_a receipt_doc
    (by decide) (by rfl) (by rfl) (by rfl) hok⟩

/-- Mapping a function over a list does not change a filter when the function
preserves the predicate and fixes every element satisfying it. -/
theorem filter_map_eq_filter {α : Type} (p : α → Bool) (f : α → α) (l : List α)
    (h : ∀ x ∈ l, p (f x) = p x ∧ (p x = true → f x = x)) :
    (l.map f).filter p = l.filter p := by
  induction l with
  | nil => rfl
  | cons a t ih =>
    rw [List.map_cons]
    have ha := h a (List.mem_cons_self _ _)
    have iht := ih (fun x hx => h x (List.mem_cons_of_mem _ hx))
    rcases hpa : p a with _ | _
    · rw [List.filter_cons_of_neg (by simp [ha.1, hpa]), List.filter_cons_of_neg (by simp [hpa])]
      exact iht
    · rw [ha.2 hpa, List.filter_cons_of_pos (by simp [hpa]), List.filter_cons_of_pos (by simp [hpa])]
      rw [iht]

/-- One auto-reconciliation step either leaves a transaction unchanged, or the
transaction was a collected bank transaction whose selection accepted a link. -/
theorem auto_step_cases (fuzz : String → String → Nat) (db : DB) (t : Transaction) :
    auto_step fuzz db t = t ∨
      (is_unlinked_bank_txn db.documents t = true ∧ ∃ L,
        select_best fuzz (receipt_txns db.documents db.transactions) t = some L ∧
        auto_step fuzz db t = apply_match t L) := by
  by_cases h : is_unlinked_bank_txn db.documents t = true
  · rcases hsel : select_best fuzz (receipt_txns db.documents db.transactions) t with _ | L
    · left
      simp [auto_step, h, hsel]
    · right
      exact ⟨h, L, rfl, by simp [auto_step, h, hsel]⟩
  · left
    simp [auto_step, h]

/-- The step of one auto run never changes a transaction's owning document. -/
theorem auto_step_preserves_document_id (fuzz : String → String → Nat) (db : DB)
    (t : Transaction) : (auto_step fuzz db t).document_id = t.document_id := by
  rcases auto_step_cases fuzz db t with h | ⟨-, L, -, h⟩ <;> rw [h] <;> rfl

/-- The receipt candidate list is unchanged by an auto run: receipt-owned
transactions are never collected as bank transactions and so are untouched. -/
theorem receipt_txns_after_run (fuzz : String → String → Nat) (db : DB) :
    receipt_txns db.documents (db.transactions.map (auto_step fuzz db)) =
      receipt_txns db.documents db.transactions := by
  unfold receipt_txns
  apply filter_map_eq_filter
  intro x hx
  constructor
  · have hdoc := auto_step_preserves_document_id fuzz db x
    simp [owner_doc_type, hdoc]
  · intro hpx
    have hown : owner_doc_type db.documents x = some "RECEIPT" := by simpa using hpx
    have hnb : is_unlinked_bank_txn db.documents x = false := by
      unfold is_unlinked_bank_txn
      rw [hown]
      simp
    simp [auto_step, hnb]

/-- Claim C7: a transaction whose link triple is already set — in particular
one carrying `match_type = MANUAL` after a successful manual match — is left
entirely unchanged by a subsequent auto-reconciliation run, because the run
only collects transactions with `receipt_id IS NULL`. -/
theorem C7_manual_link_untouched (fuzz : String → String → Nat) (db : DB)
    (t : Transaction) (ht : t ∈ db.transactions)
    (hm : t.match_type = some "MANUAL") (hr : t.receipt_id.isSome = true) :
    auto_step fuzz db t = t
  ∧ (run_auto_reconciliation fuzz db).db.transactions =
      db.transactions.map (auto_step fuzz db)
  ∧ t ∈ (run_auto_reconciliation fuzz db).db.transactions := by
  have hnb : is_unlinked_bank_txn db.documents t = false := by
    unfold is_unlinked_bank_txn
    rcases hr2 : t.receipt_id with _ | v
    · rw [hr2] at hr
      simp at hr
    · simp [hr2]
  have hstep : auto_step fuzz db t = t := by simp [auto_step, hnb]
  exact ⟨hstep, rfl, List.mem_map.mpr ⟨t, ht, hstep⟩⟩

/-- Witness for C7: the manually matched `holder_txn` of `manual_db` survives
an auto run untouched. -/
theorem C7_manual_link_untouched_witness :
    holder_txn.match_type = some "MANUAL"
  ∧ auto_step fuzz_const manual_db holder_txn = holder_txn
  ∧ holder_txn ∈ (run_auto_reconciliation fuzz_const manual_db).db.transactions := by
  have h := C7_manual_link_untouched fuzz_const manual_db holder_txn
    (by decide) (by rfl) (by rfl)
  exact ⟨rfl, h.1, h.2.2⟩

/-- Claim C8: auto-reconciliation is idempotent: a second run immediately
after a first one, with no intervening data change, reports zero matches,
since every transaction matched by the first run now has `receipt_id` set and
is excluded from collection, and the unmatched ones fail selection again. -/
theorem C8_idempotent (fuzz : String → String → Nat) (db : DB) :
    (run_auto_reconciliation fuzz (run_auto_reconciliation fuzz db).db).matches_found = 0 := by
  show (((run_auto_reconciliation fuzz db).db.transactions.filter
      (is_unlinked_bank_txn (run_auto_reconciliation fuzz db).db.documents)).filterMap
      (fun t => (select_best fuzz
        (receipt_txns (run_auto_reconciliation fuzz db).db.documents
          (run_auto_reconciliation fuzz db).db.transactions) t).map
        (fun L => (t.id, L.receipt_doc_id, L.score)))).length = 0
  rw [List.length_eq_zero, List.filterMap_eq_nil_iff]
  intro t ht
  rw [Option.map_eq_none']
  have htmem := List.mem_of_mem_filter ht
  have htp := List.of_mem_filter ht
  have htxns : (run_auto_reconciliation fuzz db).db.transactions =
      db.transactions.map (auto_step fuzz db) := rfl
  have hrec1 : receipt_txns (run_auto_reconciliation fuzz db).db.documents
      (run_auto_reconciliation fuzz db).db.transactions =
      receipt_txns db.documents db.transactions := receipt_txns_after_run fuzz db
  rw [hrec1]
  rw [htxns] at htmem
  obtain ⟨s, hs, rfl⟩ := List.mem_map.mp htmem
  rcases auto_step_cases fuzz db s with heq | ⟨hbank, L, hsel, heq⟩
  · rw [heq] at htp ⊢
    rcases hsel : select_best fuzz (receipt_txns db.documents db.transactions) s with _ | L
    · rfl
    · exfalso
      have hbank2 : is_unlinked_bank_txn db.documents s = true := htp
      have hstep : auto_step fuzz db s = apply_match s L := by
        simp [auto_step, hbank2, hsel]
      rw [heq] at hstep
      have hrid : s.receipt_id = some L.receipt_doc_id := by
        conv_lhs => rw [hstep]
        rfl
      unfold is_unlinked_bank_txn at hbank2
      rw [hrid] at hbank2
      simp at hbank2
  · exfalso
    rw [heq] at htp
    unfold is_unlinked_bank_txn at htp
    simp [apply_match] at htp

/-- Claim C2: `clear_workspace` never deletes a finalized transaction nor its
owning document, for every month, year and `only_unlinked` flag value: the
transaction delete filters on `is_finalized == false`, and a document owning
a surviving transaction is kept. -/
theorem C2_finalized_protected (db : DB) (month year : Nat) (only_unlinked : Bool)
    (t : Transaction)
    (hnd_t : (db.transactions.map Transaction.id).Nodup)
    (hnd_d : (db.documents.map FinancialDocument.id).Nodup)
    (ht : t ∈ db.transactions) (hfin : t.is_finalized = true) :
    t ∈ (clear_workspace db month year only_unlinked).db.transactions
  ∧ ∀ d ∈ db.documents, d.id = t.document_id →
      d ∈ (clear_workspace db month year only_unlinked).db.documents := by
  have htid : t.id ∉ cw_txn_ids db month year only_unlinked := by
    intro hmem
    obtain ⟨c, hc, hcid⟩ := List.mem_map.mp hmem
    have hc2 := List.mem_of_mem_filter hc
    have hceq : c = t := List.inj_on_of_nodup_map hnd_t hc2 ht hcid
    have hcp := List.of_mem_filter hc
    rw [hceq] at hcp
    unfold cw_txn_pred at hcp
    rw [hfin] at hcp
    simp at hcp
  have htin : t ∈ cw_remaining_txns db month year only_unlinked :=
    List.mem_filter.mpr ⟨ht, by simpa using htid⟩
  refine ⟨htin, fun d hd hdid => ?_⟩
  apply List.mem_filter.mpr
  refine ⟨hd, ?_⟩
  suffices h : d.id ∉ (cw_docs_to_delete db month year only_unlinked).map
      FinancialDocument.id by simpa using h
  intro hmem
  obtain ⟨g, hg, hgid⟩ := List.mem_map.mp hmem
  have hg_docs : g ∈ db.documents :=
    List.mem_of_mem_filter (List.mem_of_mem_filter hg)
  have hgeq : g = d := List.inj_on_of_nodup_map hnd_d hg_docs hd hgid
  have hpred := List.of_mem_filter hg
  rw [hgeq] at hpred
  unfold cw_doc_pred at hpred
  rw [Bool.and_eq_true, Bool.and_eq_true] at hpred
  have hempty := hpred.2
  rw [List.isEmpty_iff] at hempty
  have : t ∈ (cw_remaining_txns db month year only_unlinked).filter
      (fun x => x.document_id == d.id) :=
    List.mem_filter.mpr ⟨htin, by simp [hdid]⟩
  rw [hempty] at this
  simp at this

/-- Witness for C2: the finalized transaction of `cleanup_db` and its owning
document both survive a full (non-`only_unlinked`) cleanup of its own
competence period. -/
theorem C2_finalized_protected_witness :
    finalized_txn.is_finalized = true
  ∧ finalized_txn ∈ (clear_workspace cleanup_db 11 2025 false).db.transactions
  ∧ ∀ d ∈ cleanup_db.documents, d.id = finalized_txn.document_id →
      d ∈ (clear_workspace cleanup_db 11 2025 false).db.documents := by
  have h := C2_finalized_protected cleanup_db 11 2025 false finalized_txn
    (by decide) (by decide) (by decide) (by decide)
  exact ⟨rfl, h.1, h.2⟩

/-- With `force` the validation of the manual match endpoint is skipped
entirely: the warning list is empty by construction. -/
theorem manual_warnings_force (db : DB) (txn : Transaction)
    (receipt : FinancialDocument) : manual_warnings db txn receipt true = [] := by
  unfold manual_warnings
  rw [if_pos rfl]

/-- Without `force`, a beyond-tolerance magnitude difference against the
receipt's first owned transaction produces exactly the discrepancy warning. -/
theorem manual_warnings_discrepancy (db : DB) (txn rt : Transaction)
    (receipt : FinancialDocument)
    (hfirst : (db.transactions.filter (fun t => t.document_id == receipt.id)).head? =
      some rt)
    (hdiff : (5 : Rat)/100 < abs (abs txn.amount - abs rt.amount)) :
    manual_warnings db txn receipt false =
      [discrepancy_message (abs txn.amount) (abs rt.amount)] := by
  unfold manual_warnings
  rw [if_neg (by simp)]
  simp only [hfirst]
  rw [if_pos hdiff]

/-- Without `force`, a receipt owning no transaction yields no warning: the
discrepancy check is vacuously skipped. -/
theorem manual_warnings_no_receipt_txn (db : DB) (txn : Transaction)
    (receipt : FinancialDocument)
    (hempty : db.transactions.filter (fun t => t.document_id == receipt.id) = []) :
    manual_warnings db txn receipt false = [] := by
  unfold manual_warnings
  rw [if_neg (by simp)]
  simp only [hempty, List.head?_nil]

/-- Every transaction of the applied-match map whose id is the target id ends
with the manual link triple set. -/
theorem apply_manual_sets_triple (rid tidn : Nat) (l : List Transaction) :
    ∀ x ∈ l.map (apply_manual_fn rid tidn), x.id = tidn →
      x.receipt_id = some rid ∧ x.match_score = some 1 ∧ x.match_type = some "MANUAL" := by
  intro x hx hid
  obtain ⟨y, hy, rfl⟩ := List.mem_map.mp hx
  by_cases h : y.id = tidn
  · rw [apply_manual_fn, if_pos (by simp [h])]
    exact ⟨rfl, rfl, rfl⟩
  · exfalso
    rw [apply_manual_fn, if_neg (by simp [h])] at hid
    exact h hid

/-- A transaction found by the id lookup carries the looked-up id. -/
theorem find?_id_eq (db : DB) (tid : Nat) (txn : Transaction)
    (htxn : db.transactions.find? (fun t => t.id == tid) = some txn) :
    txn.id = tid := by
  have := List.find?_some htxn
  simpa using this

/-- Claim C6: with `force = false` the manual match endpoint rejects with a
Conflict whose detail names both magnitudes whenever the target transaction's
amount differs from the receipt's first owned transaction amount by more than
0.05; the identical request with `force = true` skips the check and succeeds,
setting the manual link triple. -/
theorem C6_discrepancy_conflict (db : DB) (tid rp : Nat)
    (txn rt : Transaction) (receipt : FinancialDocument)
    (htxn : db.transactions.find? (fun t => t.id == tid) = some txn)
    (hrec : resolve_receipt db rp = some receipt)
    (htype : receipt.doc_type = "RECEIPT")
    (hfirst : (db.transactions.filter (fun t => t.document_id == receipt.id)).head? =
      some rt)
    (hdiff : (5 : Rat)/100 < abs (abs txn.amount - abs rt.amount)) :
    (manual_match_transaction db tid rp false).2 =
      .error (.conflict ("Discrepancy Detected: " ++
        discrepancy_message (abs txn.amount) (abs rt.amount)))
  ∧ (manual_match_transaction db tid rp true).2 = .ok "Match confirmed"
  ∧ ∀ x ∈ (manual_match_transaction db tid rp true).1.transactions, x.id = tid →
      x.receipt_id = some receipt.id ∧ x.match_score = some 1 ∧
        x.match_type = some "MANUAL" := by
  have hw := manual_warnings_discrepancy db txn rt receipt hfirst hdiff
  have hwf := manual_warnings_force db txn receipt
  refine ⟨?_, ?_, ?_⟩
  · rw [manual_match_eq db tid rp false txn receipt htxn hrec htype]
    rw [if_neg (by simp [hw])]
    rw [hw]
    rfl
  · rw [manual_match_eq db tid rp true txn receipt htxn hrec htype]
    rw [if_pos (by simp [hwf])]
  · intro x hx hid
    rw [manual_match_eq db tid rp true txn receipt htxn hrec htype] at hx
    rw [if_pos (by simp [hwf])] at hx
    have htid := find?_id_eq db tid txn htxn
    rw [← htid] at hid
    exact apply_manual_sets_triple receipt.id txn.id _ x hx hid

/-- Witness for C6: on `mismatch_db` (transaction 100.00, receipt 150.00) the
unforced request conflicts with the two magnitudes in the detail, and the
forced request links the transaction. -/
theorem C6_discrepancy_conflict_witness :
    (5 : Rat)/100 < abs (abs mismatch_txn.amount - abs receipt_txn_150.amount)
  ∧ (manual_match_transaction mismatch_db 7 40 false).2 =
      .error (.conflict ("Discrepancy Detected: " ++
        discrepancy_message (abs mismatch_txn.amount) (abs receipt_txn_150.amount)))
  ∧ (manual_match_transaction mismatch_db 7 40 true).2 = .ok "Match confirmed"
  ∧ ∀ x ∈ (manual_match_transaction mismatch_db 7 40 true).1.transactions, x.id = 7 →
      x.receipt_id = some receipt_doc_40.id ∧ x.match_score = some 1 ∧
        x.match_type = some "MANUAL" := by
  have hdiff : (5 : Rat)/100 < abs (abs mismatch_txn.amount - abs receipt_txn_150.amount) := by
    show (5 : Rat)/100 < abs (abs (100 : Rat) - abs (150 : Rat))
    norm_num [abs_of_nonpos]
  have h := C6_discrepancy_conflict mismatch_db 7 40 mismatch_txn receipt_txn_150
    receipt_doc_40 (by rfl) (by rfl) (by rfl) (by rfl) hdiff
  exact ⟨hdiff, h.1, h.2.1, h.2.2⟩

/-- Claim C9: on the Conflict path the steal has already executed inside the
unit of work: the session state carried by the error has every other previous
holder of the receipt cleared, so the error path is not atomic with respect
to those holders' links. -/
theorem C9_steal_before_conflict (db : DB) (tid rp : Nat)
    (txn rt : Transaction) (receipt : FinancialDocument)
    (htxn : db.transactions.find? (fun t => t.id == tid) = some txn)
    (hrec : resolve_receipt db rp = some receipt)
    (htype : receipt.doc_type = "RECEIPT")
    (hfirst : (db.transactions.filter (fun t => t.document_id == receipt.id)).head? =
      some rt)
    (hdiff : (5 : Rat)/100 < abs (abs txn.amount - abs rt.amount)) :
    (∃ detail, (manual_match_transaction db tid rp false).2 = .error (.conflict detail))
  ∧ (manual_match_transaction db tid rp false).1.transactions =
      db.transactions.map (steal_fn receipt.id txn.id)
  ∧ ∀ u ∈ db.transactions, u.receipt_id = some receipt.id → u.id ≠ tid →
      steal_fn receipt.id txn.id u = clear_link u ∧
        clear_link u ∈ (manual_match_transaction db tid rp false).1.transactions := by
  have hw := manual_warnings_discrepancy db txn rt receipt hfirst hdiff
  have hmm := manual_match_eq db tid rp false txn receipt htxn hrec htype
  rw [if_neg (by simp [hw])] at hmm
  have htid := find?_id_eq db tid txn htxn
  refine ⟨⟨_, by rw [hmm]⟩, by rw [hmm], fun u hu hur huid => ?_⟩
  have hcond : (u.receipt_id == some receipt.id && u.id != txn.id) = true := by
    rw [htid]
    simp [hur, huid]
  have hsteal : steal_fn receipt.id txn.id u = clear_link u := by
    rw [steal_fn, if_pos hcond]
  refine ⟨hsteal, ?_⟩
  rw [hmm]
  exact List.mem_map.mpr ⟨u, hu, hsteal⟩

/-- Witness for C9: on `steal_db` the unforced mismatched request conflicts,
yet the prior holder of receipt 40 is already unlinked in the session state. -/
theorem C9_steal_before_conflict_witness :
    (5 : Rat)/100 < abs (abs mismatch_txn.amount - abs receipt_txn_150.amount)
  ∧ (∃ detail, (manual_match_transaction steal_db 7 40 false).2 =
      .error (.conflict detail))
  ∧ steal_fn receipt_doc_40.id mismatch_txn.id holder_txn_40 = clear_link holder_txn_40
  ∧ clear_link holder_txn_40 ∈ (manual_match_transaction steal_db 7 40 false).1.transactions := by
  have hdiff : (5 : Rat)/100 < abs (abs mismatch_txn.amount - abs receipt_txn_150.amount) := by
    show (5 : Rat)/100 < abs (abs (100 : Rat) - abs (150 : Rat))
    norm_num [abs_of_nonpos]
  have h := C9_steal_before_conflict steal_db 7 40 mismatch_txn receipt_txn_150
    receipt_doc_40 (by rfl) (by rfl) (by rfl) (by rfl) hdiff
  have h3 := h.2.2 holder_txn_40 (by decide) (by rfl) (by decide)
  exact ⟨hdiff, h.1, h3.1, h3.2⟩

/-- Claim C10: when the resolved receipt owns zero transactions, the amount
discrepancy check is vacuously skipped even with `force = false`: no Conflict
can arise and the call succeeds, setting the manual link triple. -/
theorem C10_empty_receipt_no_conflict (db : DB) (tid rp : Nat)
    (txn : Transaction) (receipt : FinancialDocument)
    (htxn : db.transactions.find? (fun t => t.id == tid) = some txn)
    (hrec : resolve_receipt db rp = some receipt)
    (htype : receipt.doc_type = "RECEIPT")
    (hempty : db.transactions.filter (fun t => t.document_id == receipt.id) = []) :
    (manual_match_transaction db tid rp false).2 = .ok "Match confirmed"
  ∧ ∀ x ∈ (manual_match_transaction db tid rp false).1.transactions, x.id = tid →
      x.receipt_id = some receipt.id ∧ x.match_score = some 1 ∧
        x.match_type = some "MANUAL" := by
  have hw := manual_warnings_no_receipt_txn db txn receipt hempty
  have hmm := manual_match_eq db tid rp false txn receipt htxn hrec htype
  rw [if_pos (by simp [hw])] at hmm
  refine ⟨by rw [hmm], fun x hx hid => ?_⟩
  rw [hmm] at hx
  have htid := find?_id_eq db tid txn htxn
  rw [← htid] at hid
  exact apply_manual_sets_triple receipt.id txn.id _ x hx hid

/-- Witness for C10: on `empty_receipt_db` the unforced request against the
transaction-less receipt succeeds and links transaction 7 to document 50. -/
theorem C10_empty_receipt_no_conflict_witness :
    empty_receipt_db.transactions.filter
      (fun t => t.document_id == empty_receipt_doc.id) = []
  ∧ (manual_match_transaction empty_receipt_db 7 50 false).2 = .ok "Match confirmed"
  ∧ ∀ x ∈ (manual_match_transaction empty_receipt_db 7 50 false).1.transactions,
      x.id = 7 → x.receipt_id = some empty_receipt_doc.id ∧ x.match_score = some 1 ∧
        x.match_type = some "MANUAL" := by
  have h := C10_empty_receipt_no_conflict empty_receipt_db 7 50 mismatch_txn
    empty_receipt_doc (by rfl) (by rfl) (by rfl) (by rfl)
  exact ⟨by rfl, h.1, h.2⟩
